import Mathlib

/-!
Shallow embedding of the what-constitutes-software query library
(src/src/lib.rs): the default-snapshot extractor `_map_to_output_format`
with its warning channel, its predicate form `can_map_to_output_format`,
and the nine djanco query pipelines (criteria filters, two-pass sampling
configuration, CSV output requests).  The djanco store objects are
modelled by plain structures carrying exactly the attributes the queries
consume; the external sampling engine is kept abstract as a parameter.
-/

set_option autoImplicit false

namespace WhatSoftware

/-- Identity of a project in the store (djanco ProjectId). -/
structure ProjectId where
  id : Nat
deriving DecidableEq

/-- Identity of a file-content snapshot (djanco SnapshotId). -/
structure SnapshotId where
  id : Nat
deriving DecidableEq

/-- A file path object; the code consumes only its location() string. -/
structure PathObj where
  location : String
deriving DecidableEq

/-- One tree change entry: path_id plus optional path and snapshot id,
as exposed by change.path_id(), change.path(), change.snapshot_id(). -/
structure Change where
  path_id : Nat
  path : Option PathObj
  snapshot_id : Option SnapshotId
deriving DecidableEq

/-- A commit tree; changes_with_data() yields its change list. -/
structure Tree where
  changes : List Change
deriving DecidableEq

/-- A commit; tree_with_data() is total in the source. -/
structure Commit where
  tree : Tree
deriving DecidableEq

/-- A branch head: ref-path name, commit_id, and the optional resolved
commit (commit_with_data() may fail even though commit_id prints). -/
structure Head where
  name : String
  commit_id : Nat
  commit : Option Commit
deriving DecidableEq

/-- Language tags used by the queries. -/
inductive Language where
  | java
  | python
  | javascript
deriving DecidableEq

/-- Durations in the djanco time module; modelled in seconds. -/
structure Duration where
  seconds : Nat
deriving DecidableEq

/-- Construction used by the criteria filters: Duration::from_days. -/
def Duration.from_days (d : Nat) : Duration :=
  ⟨d * 86400⟩

/-- A project with the attributes the queries consume.  Collections
(users, snapshots, commits) appear only through Count, so they are
modelled by their cardinalities. -/
structure Project where
  id : ProjectId
  default_branch : Option String
  heads : Option (List Head)
  language : Language
  stars : Nat
  maxHIndex1 : Nat
  age : Duration
  users : Nat
  locs : Nat
  snapshots : Nat
  commits : Nat
deriving DecidableEq

/-- One output triple (ProjectId, path location, SnapshotId). -/
abbrev Row := ProjectId × String × SnapshotId

/-- Structured form of the WARNING lines `_map_to_output_format` prints
to stderr, one constructor per eprintln site, carrying the data each
message interpolates. -/
inductive Warning where
  | noDefaultBranch (project_id : ProjectId)
  | noHeads (project_id : ProjectId)
  | noDefaultHead (project_id : ProjectId)
  | multipleDefaultHeads (count : Nat) (project_id : ProjectId)
  | noCommit (project_id : ProjectId) (commit_id : Nat)
  | pathNotFound (project_id : ProjectId) (path_id : Nat)
  | snapshotNotFound (project_id : ProjectId) (path_id : Nat)
deriving DecidableEq

/-- Recognizer for the ambiguous-head warning. -/
def Warning.isAmbiguousHead : Warning → Bool
  | .multipleDefaultHeads _ _ => true
  | _ => false

/-- Per-change step of the extractor (the closure inside flat_map):
check path first, then snapshot id, returning the optional row together
with the warnings printed for this change. -/
def processChange (project_id : ProjectId) (change : Change) :
    Option Row × List Warning :=
  match change.path with
  | none => (none, [Warning.pathNotFound project_id change.path_id])
  | some path =>
    match change.snapshot_id with
    | none => (none, [Warning.snapshotNotFound project_id change.path_id])
    | some snapshot_id => (some (project_id, path.location, snapshot_id), [])

/-- Change-list traversal of the extractor: flat_map over the changes,
collecting surviving rows in order and concatenating warnings. -/
def processChanges (project_id : ProjectId) : List Change → List Row × List Warning
  | [] => ([], [])
  | change :: rest =>
    let step := processChange project_id change
    let tail := processChanges project_id rest
    (step.1.toList ++ tail.1, step.2 ++ tail.2)

/-- Tail of the extractor once a head has been chosen: resolve the
commit (or warn with the commit_id of the head), take its tree, and process
the change list. -/
def mapFromHead (project_id : ProjectId) (head : Head) :
    Option (List Row) × List Warning :=
  match head.commit with
  | none => (none, [Warning.noCommit project_id head.commit_id])
  | some head_commit =>
    let head_tree := head_commit.tree
    let res := processChanges project_id head_tree.changes
    (some res.1, res.2)

/-- Embedding of `_map_to_output_format` from src/src/lib.rs: resolve
default branch, heads, the heads matching refs/heads/branch (warning if
several, using the first), the head commit, then the tree changes.  The
first component is the Rust return value; the second collects the
WARNING lines in print order. -/
def _map_to_output_format (project : Project) :
    Option (List Row) × List Warning :=
  let project_id := project.id
  match project.default_branch with
  | none => (none, [Warning.noDefaultBranch project_id])
  | some default_branch =>
    let default_branch_path := "refs/heads/" ++ default_branch
    match project.heads with
    | none => (none, [Warning.noHeads project_id])
    | some heads =>
      let default_heads := heads.filter (fun head => head.name == default_branch_path)
      match default_heads with
      | [] => (none, [Warning.noDefaultHead project_id])
      | head :: other_heads =>
        let ambiguity :=
          if other_heads.length + 1 > 1 then
            [Warning.multipleDefaultHeads (other_heads.length + 1) project_id]
          else []
        let res := mapFromHead project_id head
        (res.1, ambiguity ++ res.2)

/-- Embedding of `map_to_output_format`: the same computation, keeping
only the returned Option (the warnings go to stderr in the source). -/
def map_to_output_format (project : Project) : Option (List Row) :=
  (_map_to_output_format project).1

/-- Embedding of `can_map_to_output_format`: `_map_to_output_format(project).is_some()`. -/
def can_map_to_output_format (project : Project) : Bool :=
  (_map_to_output_format project).1.isSome

/-! Query pipeline configuration: the constants and sampling
specifications appearing literally in the nine query functions. -/

/-- Constant SELECTION_SIZE from src/src/lib.rs. -/
def SELECTION_SIZE : Nat := 1020

/-- Constant HEADERS from src/src/lib.rs. -/
def HEADERS : List String := ["pid", "path", "hash_id"]

/-- Seed constant SEED_ALL. -/
def SEED_ALL : Nat := 1

/-- Seed constant SEED_100LOC_7D_10C. -/
def SEED_100LOC_7D_10C : Nat := 2

/-- Seed constant SEED_1000LOC_180D_100C. -/
def SEED_1000LOC_180D_100C : Nat := 3

/-- Numeric project attributes the queries sort or ratio-filter by. -/
inductive Metric where
  | stars
  | commits
deriving DecidableEq

/-- An exact fraction, used for the MinRatio(metric, 0.9) argument. -/
structure Fraction where
  num : Nat
  den : Nat
deriving DecidableEq

/-- Sampling strategy argument of a .sample(...) call.  DistinctRandom(n,
seed, MinRatio(m, r)) in the source is sugar for Distinct(Random(n, seed),
MinRatio(m, r)); both are modelled by the distinctRandom constructor. -/
inductive SampleSpec where
  | top (n : Nat)
  | random (n : Nat) (seed : Nat)
  | distinctRandom (n : Nat) (seed : Nat) (metric : Metric) (minFraction : Fraction)
deriving DecidableEq

/-- Nominal element count a sampling specification asks for. -/
def SampleSpec.size : SampleSpec → Nat
  | .top n => n
  | .random n _ => n
  | .distinctRandom n _ _ _ => n

/-- Seed of a sampling specification, when the strategy is seeded. -/
def SampleSpec.seed : SampleSpec → Option Nat
  | .top _ => none
  | .random _ s => some s
  | .distinctRandom _ s _ _ => some s

/-- The external djanco query engine, kept abstract: run executes one
sampling strategy over a pool, sortBy sorts a pool by a metric.  The
queries are parametric in it; any engine instance yields one concrete
pipeline semantics. -/
structure Engine where
  run : SampleSpec → List Project → List Project
  sortBy : Metric → List Project → List Project

/-- A pending CSV write: target filename inside the caller-supplied
output directory, header row, and the per-project row groups handed to
the exporter. -/
structure CsvRequest where
  filename : String
  headers : List String
  rowGroups : List (List Row)
deriving DecidableEq

/-- Flattening the exporter performs: per-project triple lists become
one row sequence. -/
def CsvRequest.rows (r : CsvRequest) : List Row :=
  r.rowGroups.flatten

/-- Bool form of the AtLeast(attribute, threshold) predicate on numeric
attributes. -/
def atLeast (value threshold : Nat) : Bool :=
  decide (threshold ≤ value)

/-- Bool form of AtLeast on duration attributes. -/
def Duration.atLeast (value threshold : Duration) : Bool :=
  decide (threshold.seconds ≤ value.seconds)

/-- Bool form of the Equal(project::Language, lang) predicate. -/
def languageIs (lang : Language) (p : Project) : Bool :=
  p.language == lang

/-! Per-query sampling specifications, named so the pass structure of
each query is inspectable. -/

/-- Pass-1 sample of sample_all_java: DistinctRandom(SELECTION_SIZE + 1000, Seed(SEED_ALL), MinRatio(Commits, 0.9)). -/
def sample_all_java_pass1 : SampleSpec :=
  .distinctRandom (SELECTION_SIZE + 1000) SEED_ALL Metric.commits ⟨9, 10⟩

/-- Pass-2 sample of sample_all_java: Distinct(Random(SELECTION_SIZE, Seed(SEED_ALL)), MinRatio(Commits, 0.9)). -/
def sample_all_java_pass2 : SampleSpec :=
  .distinctRandom SELECTION_SIZE SEED_ALL Metric.commits ⟨9, 10⟩

/-- Pass-1 sample of sample_all_py: Random(SELECTION_SIZE + 1000, Seed(SEED_ALL)). -/
def sample_all_py_pass1 : SampleSpec :=
  .random (SELECTION_SIZE + 1000) SEED_ALL

/-- Pass-2 sample of sample_all_py: Random(SELECTION_SIZE, Seed(SEED_ALL)). -/
def sample_all_py_pass2 : SampleSpec :=
  .random SELECTION_SIZE SEED_ALL

/-- Pass-1 sample of sample_all_js: Random(SELECTION_SIZE + 1000, Seed(SEED_ALL)). -/
def sample_all_js_pass1 : SampleSpec :=
  .random (SELECTION_SIZE + 1000) SEED_ALL

/-- Pass-2 sample of sample_all_js: Random(SELECTION_SIZE, Seed(SEED_ALL)). -/
def sample_all_js_pass2 : SampleSpec :=
  .random SELECTION_SIZE SEED_ALL

/-- Pass-1 sample of sample_developed_java: Distinct(Random(SELECTION_SIZE + 1000, Seed(SEED_100LOC_7D_10C)), MinRatio(Commits, 0.9)). -/
def sample_developed_java_pass1 : SampleSpec :=
  .distinctRandom (SELECTION_SIZE + 1000) SEED_100LOC_7D_10C Metric.commits ⟨9, 10⟩

/-- Pass-2 sample of sample_developed_java: Distinct(Random(SELECTION_SIZE, Seed(SEED_100LOC_7D_10C)), MinRatio(Commits, 0.9)). -/
def sample_developed_java_pass2 : SampleSpec :=
  .distinctRandom SELECTION_SIZE SEED_100LOC_7D_10C Metric.commits ⟨9, 10⟩

/-- Pass-1 sample of sample_developed_py, same strategy as the java variant. -/
def sample_developed_py_pass1 : SampleSpec :=
  .distinctRandom (SELECTION_SIZE + 1000) SEED_100LOC_7D_10C Metric.commits ⟨9, 10⟩

/-- Pass-2 sample of sample_developed_py, same strategy as the java variant. -/
def sample_developed_py_pass2 : SampleSpec :=
  .distinctRandom SELECTION_SIZE SEED_100LOC_7D_10C Metric.commits ⟨9, 10⟩

/-- Pass-1 sample of sample_developed_js, same strategy as the java variant. -/
def sample_developed_js_pass1 : SampleSpec :=
  .distinctRandom (SELECTION_SIZE + 1000) SEED_100LOC_7D_10C Metric.commits ⟨9, 10⟩

/-- Pass-2 sample of sample_developed_js, same strategy as the java variant. -/
def sample_developed_js_pass2 : SampleSpec :=
  .distinctRandom SELECTION_SIZE SEED_100LOC_7D_10C Metric.commits ⟨9, 10⟩

/-! Output filenames, one per query function, as the literals passed to
into_csv_with_headers_in_dir. -/

/-- Filename literal of sample_stars_java. -/
def sample_stars_java_filename : String := "sample_stars.csv"

/-- Filename literal of sample_stars_py. -/
def sample_stars_py_filename : String := "sample_stars.csv"

/-- Filename literal of sample_stars_js. -/
def sample_stars_js_filename : String := "sample_stars.csv"

/-- Filename literal of sample_all_java. -/
def sample_all_java_filename : String := "sample_all.csv"

/-- Filename literal of sample_all_py. -/
def sample_all_py_filename : String := "sample_all.csv"

/-- Filename literal of sample_all_js. -/
def sample_all_js_filename : String := "sample_all.csv"

/-- Filename literal of sample_developed_java. -/
def sample_developed_java_filename : String := "sample_developed.csv"

/-- Filename literal of sample_developed_py. -/
def sample_developed_py_filename : String := "sample_developed.csv"

/-- Filename literal of sample_developed_js. -/
def sample_developed_js_filename : String := "sample_developed.csv"

/-! The nine query pipelines.  Each mirrors the method chain of the Rust
query: filter_by stages narrow the population, the oversized pass-1
sample is filtered by can_map_to_output_format, the pass-2 sample is
drawn from that filtered set, flat_map drops unconvertible projects,
and the surviving row groups are handed to the exporter under the
filename of the query. -/

/-- Population of the stars and all queries: projects of the given
language (no maturity thresholds). -/
def languagePopulation (lang : Language) (db : List Project) : List Project :=
  db.filter (languageIs lang)

/-- Body shared by the three stars queries: sort by stars, Top(1500),
pre-filter by convertibility, sort by stars again, Top(1020), convert. -/
def starsRowGroups (e : Engine) (lang : Language) (db : List Project) :
    List (List Row) :=
  ((e.run (SampleSpec.top 1020)
    (e.sortBy Metric.stars
      ((e.run (SampleSpec.top 1500)
        (e.sortBy Metric.stars (languagePopulation lang db))).filter
          can_map_to_output_format))).filterMap map_to_output_format)

/-- Embedding of sample_stars_java. -/
def sample_stars_java (e : Engine) (db : List Project) : CsvRequest :=
  { filename := sample_stars_java_filename
  , headers := HEADERS
  , rowGroups := starsRowGroups e Language.java db }

/-- Embedding of sample_stars_py. -/
def sample_stars_py (e : Engine) (db : List Project) : CsvRequest :=
  { filename := sample_stars_py_filename
  , headers := HEADERS
  , rowGroups := starsRowGroups e Language.python db }

/-- Embedding of sample_stars_js. -/
def sample_stars_js (e : Engine) (db : List Project) : CsvRequest :=
  { filename := sample_stars_js_filename
  , headers := HEADERS
  , rowGroups := starsRowGroups e Language.javascript db }

/-- Input pool of the second sampling pass of sample_all_java: the
pass-1 sample filtered by the convertibility predicate. -/
def sample_all_java_pass2_input (e : Engine) (db : List Project) : List Project :=
  (e.run sample_all_java_pass1 (languagePopulation Language.java db)).filter
    can_map_to_output_format

/-- Embedding of sample_all_java. -/
def sample_all_java (e : Engine) (db : List Project) : CsvRequest :=
  { filename := sample_all_java_filename
  , headers := HEADERS
  , rowGroups :=
      (e.run sample_all_java_pass2 (sample_all_java_pass2_input e db)).filterMap
        map_to_output_format }

/-- Input pool of the second sampling pass of sample_all_py. -/
def sample_all_py_pass2_input (e : Engine) (db : List Project) : List Project :=
  (e.run sample_all_py_pass1 (languagePopulation Language.python db)).filter
    can_map_to_output_format

/-- Embedding of sample_all_py. -/
def sample_all_py (e : Engine) (db : List Project) : CsvRequest :=
  { filename := sample_all_py_filename
  , headers := HEADERS
  , rowGroups :=
      (e.run sample_all_py_pass2 (sample_all_py_pass2_input e db)).filterMap
        map_to_output_format }

/-- Input pool of the second sampling pass of sample_all_js. -/
def sample_all_js_pass2_input (e : Engine) (db : List Project) : List Project :=
  (e.run sample_all_js_pass1 (languagePopulation Language.javascript db)).filter
    can_map_to_output_format

/-- Embedding of sample_all_js. -/
def sample_all_js (e : Engine) (db : List Project) : CsvRequest :=
  { filename := sample_all_js_filename
  , headers := HEADERS
  , rowGroups :=
      (e.run sample_all_js_pass2 (sample_all_js_pass2_input e db)).filterMap
        map_to_output_format }

/-- Population of sample_developed_java: the language filter followed by
the six AtLeast threshold filters of the source, in order. -/
def sample_developed_java_population (db : List Project) : List Project :=
  ((((((db.filter (languageIs Language.java)).filter
    (fun p => atLeast p.maxHIndex1 3)).filter
    (fun p => Duration.atLeast p.age (Duration.from_days 364))).filter
    (fun p => atLeast p.users 3)).filter
    (fun p => atLeast p.locs 716)).filter
    (fun p => atLeast p.snapshots 20)).filter
    (fun p => atLeast p.commits 26)

/-- Embedding of sample_developed_java. -/
def sample_developed_java (e : Engine) (db : List Project) : CsvRequest :=
  { filename := sample_developed_java_filename
  , headers := HEADERS
  , rowGroups :=
      (e.run sample_developed_java_pass2
        ((e.run sample_developed_java_pass1
          (sample_developed_java_population db)).filter
            can_map_to_output_format)).filterMap map_to_output_format }

/-- Population of sample_developed_py: the language filter followed by
the six AtLeast threshold filters of the source, in order. -/
def sample_developed_py_population (db : List Project) : List Project :=
  ((((((db.filter (languageIs Language.python)).filter
    (fun p => atLeast p.maxHIndex1 3)).filter
    (fun p => Duration.atLeast p.age (Duration.from_days 240))).filter
    (fun p => atLeast p.users 3)).filter
    (fun p => atLeast p.locs 286)).filter
    (fun p => atLeast p.snapshots 18)).filter
    (fun p => atLeast p.commits 23)

/-- Input pool of the second sampling pass of sample_developed_py. -/
def sample_developed_py_pass2_input (e : Engine) (db : List Project) : List Project :=
  (e.run sample_developed_py_pass1 (sample_developed_py_population db)).filter
    can_map_to_output_format

/-- Embedding of sample_developed_py. -/
def sample_developed_py (e : Engine) (db : List Project) : CsvRequest :=
  { filename := sample_developed_py_filename
  , headers := HEADERS
  , rowGroups :=
      (e.run sample_developed_py_pass2
        (sample_developed_py_pass2_input e db)).filterMap map_to_output_format }

/-- Population of sample_developed_js: the language filter followed by
the six AtLeast threshold filters of the source, in order. -/
def sample_developed_js_population (db : List Project) : List Project :=
  ((((((db.filter (languageIs Language.javascript)).filter
    (fun p => atLeast p.maxHIndex1 1)).filter
    (fun p => Duration.atLeast p.age (Duration.from_days 46))).filter
    (fun p => atLeast p.users 2)).filter
    (fun p => atLeast p.locs 307)).filter
    (fun p => atLeast p.snapshots 16)).filter
    (fun p => atLeast p.commits 14)

/-- Embedding of sample_developed_js. -/
def sample_developed_js (e : Engine) (db : List Project) : CsvRequest :=
  { filename := sample_developed_js_filename
  , headers := HEADERS
  , rowGroups :=
      (e.run sample_developed_js_pass2
        ((e.run sample_developed_js_pass1
          (sample_developed_js_population db)).filter
            can_map_to_output_format)).filterMap map_to_output_format }

/-- Abstract I/O error of the CSV writer (the io::Error of the query
signatures); only its presence matters to the embedding. -/
structure IoError where
  msg : String

/-- Running one query: compute the CSV request purely, then hand it to
the (abstract, fallible) writer — the only fallible step, matching the
Result type of each query function. -/
def runQuery (writer : CsvRequest → Except IoError Unit)
    (query : Engine → List Project → CsvRequest)
    (e : Engine) (db : List Project) : Except IoError Unit :=
  writer (query e db)

/-- Success condition of the extractor exactly as the control flow of
`_map_to_output_format` implements it: a named default branch, a heads
list, at least one head whose name equals refs/heads/branch, and a
resolving commit at the first such head.  The change list of the tree
plays no role. -/
def extraction_succeeds (project : Project) : Bool :=
  match project.default_branch with
  | none => false
  | some default_branch =>
    match project.heads with
    | none => false
    | some heads =>
      match heads.filter (fun head => head.name == "refs/heads/" ++ default_branch) with
      | [] => false
      | head :: _ => head.commit.isSome

/-! Concrete fixtures: changes, heads, projects, engine instances and a
writer, used to evaluate the definitions at explicit inputs. -/

/-- Change with both path and snapshot id present. -/
def goodChange : Change :=
  { path_id := 0, path := some ⟨"src/main.rs"⟩, snapshot_id := some ⟨100⟩ }

/-- Deleted-file change: path present, snapshot id absent. -/
def deletedChange : Change :=
  { path_id := 1, path := some ⟨"old.rs"⟩, snapshot_id := none }

/-- Inconsistent change: path absent, snapshot id present. -/
def orphanChange : Change :=
  { path_id := 2, path := none, snapshot_id := some ⟨101⟩ }

/-- Head named refs/heads/main whose commit holds the given changes. -/
def mainHead (commit_id : Nat) (cs : List Change) : Head :=
  { name := "refs/heads/main", commit_id := commit_id, commit := some ⟨⟨cs⟩⟩ }

/-- Extractable Java project with a single good change. -/
def projGood : Project :=
  { id := ⟨1⟩
  , default_branch := some "main"
  , heads := some [mainHead 10 [goodChange]]
  , language := Language.java
  , stars := 0
  , maxHIndex1 := 0
  , age := ⟨0⟩
  , users := 0
  , locs := 0
  , snapshots := 0
  , commits := 0 }

/-- Project whose head commit tree has an empty change list. -/
def projEmptyTree : Project :=
  { projGood with heads := some [mainHead 10 []] }

/-- Project whose only change is a deleted file. -/
def projDeleted : Project :=
  { projGood with heads := some [mainHead 10 [deletedChange]] }

/-- Project whose only change lacks a path. -/
def projOrphan : Project :=
  { projGood with heads := some [mainHead 10 [orphanChange]] }

/-- Project without a default branch (extraction fails). -/
def projNoBranch : Project :=
  { projGood with default_branch := none }

/-- Project with two heads both named refs/heads/main. -/
def projTwoHeads : Project :=
  { projGood with heads := some [mainHead 10 [goodChange], mainHead 11 []] }

/-- Young Python project: age 10 days, every other developed-py
threshold comfortably met. -/
def projYoungPy : Project :=
  { id := ⟨2⟩
  , default_branch := some "main"
  , heads := some [mainHead 10 [goodChange]]
  , language := Language.python
  , stars := 0
  , maxHIndex1 := 5
  , age := Duration.from_days 10
  , users := 5
  , locs := 1000
  , snapshots := 100
  , commits := 1000 }

/-- Mature Python project meeting every developed-py threshold. -/
def projMaturePy : Project :=
  { projYoungPy with id := ⟨3⟩, age := Duration.from_days 300 }

/-- Engine instance that runs every sampling strategy and sort as the
identity on the pool. -/
def idEngine : Engine :=
  { run := fun _ pool => pool, sortBy := fun _ pool => pool }

/-- Engine instance that answers a size-n strategy with the first n
pool elements: a degenerate but deterministic instance of the sampler
interface, used to probe the pipeline shape. -/
def takeEngine : Engine :=
  { run := fun spec pool => pool.take spec.size, sortBy := fun _ pool => pool }

/-- CSV writer that always succeeds. -/
def okWriter : CsvRequest → Except IoError Unit :=
  fun _ => Except.ok ()

/-! Helper lemmas about the extractor, shared by several results. -/

/-- Row component of processChanges is the order-preserving filtered
map of the change list through processChange. -/
theorem processChanges_fst (project_id : ProjectId) (cs : List Change) :
    (processChanges project_id cs).1
      = cs.filterMap (fun c => (processChange project_id c).1) := by
  induction cs with
  | nil => rfl
  | cons c rest ih =>
    cases h : (processChange project_id c).1 <;>
      simp [processChanges, List.filterMap_cons, h, ih]

/-- Rows of processChanges distribute over list append. -/
theorem processChanges_fst_append (project_id : ProjectId) (as bs : List Change) :
    (processChanges project_id (as ++ bs)).1
      = (processChanges project_id as).1 ++ (processChanges project_id bs).1 := by
  simp [processChanges_fst, List.filterMap_append]

/-- A change missing its path or its snapshot id yields no row. -/
theorem processChange_fst_eq_none (project_id : ProjectId) (c : Change)
    (h : c.path = none ∨ c.snapshot_id = none) :
    (processChange project_id c).1 = none := by
  rcases h with h | h
  · simp [processChange, h]
  · cases hp : c.path <;> simp [processChange, hp, h]

/-- A surviving row carries the project id it was built with. -/
theorem processChange_fst_pid (project_id : ProjectId) (c : Change) (r : Row)
    (h : (processChange project_id c).1 = some r) : r.1 = project_id := by
  rcases hp : c.path with _ | path
  · simp [processChange, hp] at h
  · rcases hs : c.snapshot_id with _ | sid
    · simp [processChange, hp, hs] at h
    · simp [processChange, hp, hs] at h
      simp [← h]

/-- The change-processing stage emits no ambiguous-head warning. -/
theorem processChanges_no_ambiguous (project_id : ProjectId) (cs : List Change) :
    ((processChanges project_id cs).2.countP Warning.isAmbiguousHead) = 0 := by
  induction cs with
  | nil => rfl
  | cons c rest ih =>
    rcases hp : c.path with _ | path
    · simp [processChanges, processChange, hp, List.countP_append,
        List.countP_cons, Warning.isAmbiguousHead, ih]
    · rcases hs : c.snapshot_id with _ | sid <;>
        simp [processChanges, processChange, hp, hs, List.countP_append,
          List.countP_cons, Warning.isAmbiguousHead, ih]

/-- The head-downward stage emits no ambiguous-head warning. -/
theorem mapFromHead_no_ambiguous (project_id : ProjectId) (head : Head) :
    ((mapFromHead project_id head).2.countP Warning.isAmbiguousHead) = 0 := by
  cases hc : head.commit <;>
    simp [mapFromHead, hc, Warning.isAmbiguousHead, List.countP_cons,
      processChanges_no_ambiguous]

/-! Results for the claims. -/

/-- C1 counterexample: a project whose head commit tree has an empty
change list is extracted successfully with an empty triple list,
refuting the claimed non-empty-changes success condition and the
claimed non-emptiness of the returned list. -/
theorem c1_empty_tree_extraction_succeeds :
    map_to_output_format projEmptyTree = some [] ∧
    can_map_to_output_format projEmptyTree = true := by
  exact ⟨by decide, by decide⟩

/-- C1 (amended): extraction succeeds iff the project has a named
default branch, a heads list, at least one head named
refs/heads/branch, and a resolving commit at the first such head; the
change list of the tree plays no role, and the returned triple list may
be empty. -/
theorem c1_extraction_success_characterisation (p : Project) :
    can_map_to_output_format p = extraction_succeeds p := by
  unfold can_map_to_output_format extraction_succeeds _map_to_output_format
  rcases hdb : p.default_branch with _ | branch
  · simp
  · rcases hh : p.heads with _ | heads
    · simp
    · rcases hf : heads.filter (fun head => head.name == "refs/heads/" ++ branch)
        with _ | ⟨h1, rest⟩
      · simp [hf]
      · rcases hc : h1.commit with _ | c <;> simp [hf, mapFromHead, hc]

/-- C2: at a deleted-file change (path present, snapshot id absent) the
extractor drops the entry but emits a snapshot-id warning, contrary to
the claimed silent drop; an absent path is dropped with a warning as
claimed. -/
theorem c2_deleted_file_emits_warning :
    _map_to_output_format projDeleted
        = (some [], [Warning.snapshotNotFound ⟨1⟩ 1]) ∧
    _map_to_output_format projOrphan
        = (some [], [Warning.pathNotFound ⟨1⟩ 2]) := by
  exact ⟨by decide, by decide⟩

/-- C3: the predicate form is the success test of the identical
extraction computation: it equals Option.isSome of map_to_output_format
at every project, and is true exactly when extraction returns a value. -/
theorem c3_predicate_agrees_with_extractor (p : Project) :
    can_map_to_output_format p = (map_to_output_format p).isSome ∧
    (can_map_to_output_format p = true
      ↔ ∃ rows, map_to_output_format p = some rows) := by
  refine ⟨rfl, ?_⟩
  simp [can_map_to_output_format, map_to_output_format, Option.isSome_iff_exists]

/-- C4 counterexample: under a size-respecting engine instance and a
two-project Java population with one unextractable project, the pool
handed to the second sampling pass is the filtered pass-1 sample and
differs from the population, refuting the claim that pass 2 runs over
the population. -/
theorem c4_pass2_not_over_population :
    languagePopulation Language.java [projGood, projNoBranch]
        = [projGood, projNoBranch] ∧
    sample_all_java_pass2_input takeEngine [projGood, projNoBranch]
        = [projGood] ∧
    sample_all_java_pass2_input takeEngine [projGood, projNoBranch]
        ≠ languagePopulation Language.java [projGood, projNoBranch] := by
  exact ⟨by decide, by decide, by decide⟩

/-- C4 (amended): in the two-pass all/developed queries, pass 1 draws
SELECTION_SIZE + 1000 = 2020 candidates, the drawn set is filtered by
the extractability predicate, pass 2 reruns the same strategy family
with the same seed at nominal size SELECTION_SIZE = 1020 over the
filtered pass-1 candidate set, and only the pass-2 output feeds the
extractor and the CSV request. -/
theorem c4_two_pass_structure (e : Engine) (db : List Project) :
    SELECTION_SIZE = 1020 ∧
    sample_all_java_pass1.size = SELECTION_SIZE + 1000 ∧
    sample_all_java_pass1.size = 2020 ∧
    sample_all_java_pass2.size = SELECTION_SIZE ∧
    sample_all_java_pass1.seed = sample_all_java_pass2.seed ∧
    sample_all_java_pass1
        = SampleSpec.distinctRandom 2020 SEED_ALL Metric.commits ⟨9, 10⟩ ∧
    sample_all_java_pass2
        = SampleSpec.distinctRandom SELECTION_SIZE SEED_ALL Metric.commits ⟨9, 10⟩ ∧
    sample_all_java_pass2_input e db
        = (e.run sample_all_java_pass1
            (languagePopulation Language.java db)).filter can_map_to_output_format ∧
    sample_all_java e db
        = { filename := sample_all_java_filename
          , headers := HEADERS
          , rowGroups :=
              (e.run sample_all_java_pass2
                (sample_all_java_pass2_input e db)).filterMap map_to_output_format } ∧
    sample_developed_py_pass1.size = SELECTION_SIZE + 1000 ∧
    sample_developed_py_pass2.size = SELECTION_SIZE ∧
    sample_developed_py_pass1.seed = sample_developed_py_pass2.seed ∧
    sample_developed_py_pass2_input e db
        = (e.run sample_developed_py_pass1
            (sample_developed_py_population db)).filter can_map_to_output_format ∧
    sample_developed_py e db
        = { filename := sample_developed_py_filename
          , headers := HEADERS
          , rowGroups :=
              (e.run sample_developed_py_pass2
                (sample_developed_py_pass2_input e db)).filterMap
                  map_to_output_format } := by
  exact ⟨rfl, rfl, rfl, rfl, rfl, rfl, rfl, rfl, rfl, rfl, rfl, rfl, rfl, rfl⟩

/-- C5 counterexample: within sample_all_py both sampling passes use
SEED_ALL, and within sample_developed_java both passes use
SEED_100LOC_7D_10C, so the second pass reuses the seed of the first
oversized pass. -/
theorem c5_second_pass_reuses_seed :
    sample_all_py_pass1.seed = some SEED_ALL ∧
    sample_all_py_pass2.seed = some SEED_ALL ∧
    sample_developed_java_pass1.seed = some SEED_100LOC_7D_10C ∧
    sample_developed_java_pass2.seed = some SEED_100LOC_7D_10C := by
  exact ⟨rfl, rfl, rfl, rfl⟩

/-- C5 (amended): distinct named seed constants exist for distinct
query families and are pairwise distinct, but within one query the
second sampling pass uses the same seed as the first oversized pass. -/
theorem c5_seed_policy :
    SEED_ALL ≠ SEED_100LOC_7D_10C ∧
    SEED_ALL ≠ SEED_1000LOC_180D_100C ∧
    SEED_100LOC_7D_10C ≠ SEED_1000LOC_180D_100C ∧
    sample_all_py_pass1.seed = sample_all_py_pass2.seed ∧
    sample_developed_java_pass1.seed = sample_developed_java_pass2.seed ∧
    sample_all_py_pass2.seed ≠ sample_developed_java_pass2.seed := by
  exact ⟨by decide, by decide, by decide, rfl, rfl, by decide⟩

/-- C6: with more than one head matching refs/heads/branch, extraction
does not fail at the head-matching step: the result continues from the
first matching head in store order, prefixed by exactly one
multipleDefaultHeads warning counting the matches, and the whole
warning list holds exactly one ambiguous-head warning. -/
theorem c6_ambiguous_heads_use_first (p : Project) (branch : String)
    (heads : List Head) (h1 h2 : Head) (rest : List Head)
    (hdb : p.default_branch = some branch)
    (hh : p.heads = some heads)
    (hf : heads.filter (fun head => head.name == "refs/heads/" ++ branch)
            = h1 :: h2 :: rest) :
    _map_to_output_format p
        = ((mapFromHead p.id h1).1,
           Warning.multipleDefaultHeads (rest.length + 2) p.id
             :: (mapFromHead p.id h1).2) ∧
    ((_map_to_output_format p).2.countP Warning.isAmbiguousHead) = 1 := by
  have hmap : _map_to_output_format p
      = ((mapFromHead p.id h1).1,
         Warning.multipleDefaultHeads (rest.length + 2) p.id
           :: (mapFromHead p.id h1).2) := by
    unfold _map_to_output_format
    simp only [hdb, hh, hf]
    have hgt : (h2 :: rest).length + 1 > 1 := by simp
    rw [if_pos hgt]
    simp [List.length_cons]
  refine ⟨hmap, ?_⟩
  rw [hmap]
  simp [List.countP_cons, Warning.isAmbiguousHead, mapFromHead_no_ambiguous]

/-- C6 witness: a concrete project with two heads named refs/heads/main
is extracted from the first head and receives one ambiguous warning. -/
theorem c6_ambiguous_heads_witness :
    _map_to_output_format projTwoHeads
        = ((mapFromHead projTwoHeads.id (mainHead 10 [goodChange])).1,
           Warning.multipleDefaultHeads 2 projTwoHeads.id
             :: (mapFromHead projTwoHeads.id (mainHead 10 [goodChange])).2) ∧
    ((_map_to_output_format projTwoHeads).2.countP Warning.isAmbiguousHead) = 1 :=
  c6_ambiguous_heads_use_first projTwoHeads "main"
    [mainHead 10 [goodChange], mainHead 11 []]
    (mainHead 10 [goodChange]) (mainHead 11 []) []
    (by decide) (by decide) (by decide)

/-- C7: recoverability of per-item failures.  A project on which
extraction fails is dropped by flat_map while the surrounding projects
still convert; a change entry missing its path or snapshot id is
dropped while the surrounding entries still yield their rows; and a
query returns exactly the outcome of the CSV writer on the purely
computed request, so an error value can only arise from the CSV write,
which an always-succeeding writer never produces. -/
theorem c7_failures_are_recoverable :
    (∀ (xs ys : List Project) (bad : Project),
      map_to_output_format bad = none →
        (xs ++ bad :: ys).filterMap map_to_output_format
          = (xs ++ ys).filterMap map_to_output_format) ∧
    (∀ (project_id : ProjectId) (cs ds : List Change) (bad : Change),
      bad.path = none ∨ bad.snapshot_id = none →
        (processChanges project_id (cs ++ bad :: ds)).1
          = (processChanges project_id (cs ++ ds)).1) ∧
    (∀ (w : CsvRequest → Except IoError Unit) (e : Engine) (db : List Project),
      runQuery w sample_all_py e db = w (sample_all_py e db)) ∧
    (∀ (w : CsvRequest → Except IoError Unit) (e : Engine) (db : List Project),
      (∀ req, w req = Except.ok ()) →
        runQuery w sample_stars_py e db = Except.ok ()) := by
  refine ⟨?_, ?_, ?_, ?_⟩
  · intro xs ys bad h
    simp [List.filterMap_append, List.filterMap_cons, h]
  · intro project_id cs ds bad h
    simp [processChanges_fst, List.filterMap_append, List.filterMap_cons,
      processChange_fst_eq_none project_id bad h]
  · intro w e db
    rfl
  · intro w e db h
    exact h _

/-- C7 witness: the recoverability statements evaluated at concrete
projects, changes, and an always-succeeding writer. -/
theorem c7_recoverable_witness :
    ([projGood] ++ projNoBranch :: []).filterMap map_to_output_format
        = ([projGood] ++ []).filterMap map_to_output_format ∧
    (processChanges ⟨1⟩ ([goodChange] ++ deletedChange :: [])).1
        = (processChanges ⟨1⟩ ([goodChange] ++ [])).1 ∧
    runQuery okWriter sample_all_py idEngine [projGood]
        = okWriter (sample_all_py idEngine [projGood]) ∧
    runQuery okWriter sample_stars_py idEngine [projGood] = Except.ok () :=
  ⟨c7_failures_are_recoverable.1 [projGood] [] projNoBranch (by decide),
   c7_failures_are_recoverable.2.1 ⟨1⟩ [goodChange] [] deletedChange
     (Or.inr rfl),
   c7_failures_are_recoverable.2.2.1 okWriter idEngine [projGood],
   c7_failures_are_recoverable.2.2.2 okWriter idEngine [projGood]
     (fun _ => rfl)⟩

/-- C8 counterexample: sample_stars_java and sample_stars_py are
distinct language/strategy combinations — on the same database they
produce different row groups — yet they write the same filename into
the caller-supplied output directory. -/
theorem c8_star_queries_share_filename :
    (sample_stars_java idEngine [projGood]).filename
        = (sample_stars_py idEngine [projGood]).filename ∧
    (sample_stars_java idEngine [projGood]).rowGroups
        ≠ (sample_stars_py idEngine [projGood]).rowGroups := by
  exact ⟨rfl, by decide⟩

/-- C8 (amended): each query writes one CSV whose filename is
determined by the strategy alone: the three strategy filenames are
pairwise distinct, every query uses the filename of its strategy, and
the same strategy across languages reuses one filename, so distinct
language/strategy combinations do not always produce distinct files. -/
theorem c8_filenames_per_strategy (e : Engine) (db : List Project) :
    sample_stars_java_filename = "sample_stars.csv" ∧
    sample_stars_py_filename = "sample_stars.csv" ∧
    sample_stars_js_filename = "sample_stars.csv" ∧
    sample_all_java_filename = "sample_all.csv" ∧
    sample_all_py_filename = "sample_all.csv" ∧
    sample_all_js_filename = "sample_all.csv" ∧
    sample_developed_java_filename = "sample_developed.csv" ∧
    sample_developed_py_filename = "sample_developed.csv" ∧
    sample_developed_js_filename = "sample_developed.csv" ∧
    sample_stars_java_filename ≠ sample_all_java_filename ∧
    sample_stars_java_filename ≠ sample_developed_java_filename ∧
    sample_all_java_filename ≠ sample_developed_java_filename ∧
    (sample_stars_java e db).filename = sample_stars_java_filename ∧
    (sample_stars_py e db).filename = sample_stars_py_filename ∧
    (sample_stars_js e db).filename = sample_stars_js_filename ∧
    (sample_all_java e db).filename = sample_all_java_filename ∧
    (sample_all_py e db).filename = sample_all_py_filename ∧
    (sample_all_js e db).filename = sample_all_js_filename ∧
    (sample_developed_java e db).filename = sample_developed_java_filename ∧
    (sample_developed_py e db).filename = sample_developed_py_filename ∧
    (sample_developed_js e db).filename = sample_developed_js_filename := by
  exact ⟨rfl, rfl, rfl, rfl, rfl, rfl, rfl, rfl, rfl, by decide, by decide,
    by decide, rfl, rfl, rfl, rfl, rfl, rfl, rfl, rfl, rfl⟩

/-- C9: membership in the developed-Python population is the
conjunction of the language test and all six AtLeast thresholds,
including age at least 240 days and at least 23 commits; a project of
age 10 days is excluded regardless of its other metrics. -/
theorem c9_developed_py_criteria (db : List Project) (p : Project) :
    (p ∈ sample_developed_py_population db ↔
      (p ∈ db ∧ p.language = Language.python ∧ 3 ≤ p.maxHIndex1 ∧
        (Duration.from_days 240).seconds ≤ p.age.seconds ∧ 3 ≤ p.users ∧
        286 ≤ p.locs ∧ 18 ≤ p.snapshots ∧ 23 ≤ p.commits)) ∧
    (p.age = Duration.from_days 10 → p ∉ sample_developed_py_population db) := by
  have key : p ∈ sample_developed_py_population db ↔
      (p ∈ db ∧ p.language = Language.python ∧ 3 ≤ p.maxHIndex1 ∧
        (Duration.from_days 240).seconds ≤ p.age.seconds ∧ 3 ≤ p.users ∧
        286 ≤ p.locs ∧ 18 ≤ p.snapshots ∧ 23 ≤ p.commits) := by
    simp [sample_developed_py_population, List.mem_filter, atLeast,
      Duration.atLeast, languageIs, beq_iff_eq, and_assoc]
    tauto
  refine ⟨key, ?_⟩
  intro hage hmem
  have hbound := (key.mp hmem).2.2.2.1
  rw [hage] at hbound
  simp [Duration.from_days] at hbound

/-- C9 witness: in a concrete two-project Python population, the
project of age 10 days with 1000 commits is excluded while the mature
project satisfying every threshold is retained. -/
theorem c9_developed_py_witness :
    projYoungPy ∉ sample_developed_py_population [projYoungPy, projMaturePy] ∧
    projMaturePy ∈ sample_developed_py_population [projYoungPy, projMaturePy] :=
  ⟨(c9_developed_py_criteria [projYoungPy, projMaturePy] projYoungPy).2 rfl,
   (c9_developed_py_criteria [projYoungPy, projMaturePy] projMaturePy).1.mpr
     ⟨by decide, rfl, by decide, by decide, by decide, by decide, by decide,
      by decide⟩⟩

/-- C10: when extraction succeeds the rows are exactly the
order-preserving filtered map of the change list of the resolved head
commit tree — each surviving row is built from the path and snapshot id
of one change entry — and the first component of every row is the id of
the extracted project. -/
theorem c10_rows_are_filtered_changes (p : Project) (rows : List Row)
    (h : map_to_output_format p = some rows) :
    (∃ branch heads h1 htail commit,
      p.default_branch = some branch ∧
      p.heads = some heads ∧
      heads.filter (fun head => head.name == "refs/heads/" ++ branch)
        = h1 :: htail ∧
      h1.commit = some commit ∧
      rows = commit.tree.changes.filterMap
        (fun c => (processChange p.id c).1)) ∧
    (∀ r ∈ rows, r.1 = p.id) := by
  unfold map_to_output_format _map_to_output_format at h
  rcases hdb : p.default_branch with _ | branch
  · simp [hdb] at h
  rcases hh : p.heads with _ | heads
  · simp [hdb, hh] at h
  rcases hf : heads.filter (fun head => head.name == "refs/heads/" ++ branch)
      with _ | ⟨h1, htail⟩
  · simp [hdb, hh, hf] at h
  rcases hc : h1.commit with _ | commit
  · simp [hdb, hh, hf, mapFromHead, hc] at h
  simp only [hdb, hh, hf, mapFromHead, hc] at h
  have hrows : rows = commit.tree.changes.filterMap
      (fun c => (processChange p.id c).1) := by
    rw [← processChanges_fst]
    simpa using h.symm
  refine ⟨⟨branch, heads, h1, htail, commit, rfl, rfl, hf, hc, hrows⟩, ?_⟩
  intro r hr
  rw [hrows] at hr
  rcases List.mem_filterMap.mp hr with ⟨c, _, hcr⟩
  exact processChange_fst_pid p.id c r hcr

/-- C10 witness: the concrete extractable project yields exactly the
row built from its single change, carrying its own project id. -/
theorem c10_rows_witness :
    (∃ branch heads h1 htail commit,
      projGood.default_branch = some branch ∧
      projGood.heads = some heads ∧
      heads.filter (fun head => head.name == "refs/heads/" ++ branch)
        = h1 :: htail ∧
      h1.commit = some commit ∧
      [((⟨1⟩ : ProjectId), "src/main.rs", (⟨100⟩ : SnapshotId))]
        = commit.tree.changes.filterMap
            (fun c => (processChange projGood.id c).1)) ∧
    (∀ r ∈ [((⟨1⟩ : ProjectId), "src/main.rs", (⟨100⟩ : SnapshotId))],
      r.1 = projGood.id) :=
  c10_rows_are_filtered_changes projGood
    [((⟨1⟩ : ProjectId), "src/main.rs", (⟨100⟩ : SnapshotId))] (by decide)

end WhatSoftware
